import Mathlib

/-!
Verification of the template-resolution pipeline of the vscode-azurefunctions
extension: the TemplateData filtering model and the four-tier template
fallback resolver of validateFuncCoreToolsIsLatest.ts (TemplateData section).

Strings model JavaScript strings; JavaScript truthiness of strings (the empty
string is falsy) is modelled explicitly where the source relies on it.
Asynchronous effects (network downloads, file reads, external toolchains) are
modelled as an explicit environment of fallible functions, and the persisted
key-value store (vscode.Memento) as an explicit record threaded through the
functions that update it.
-/

namespace AzureFunctions

/-- A raw JSON value (the source passes these around as opaque objects that are
downloaded, cached and handed to the parse functions). -/
abbrev RawJson := String

/-- Modelled from the spec: the ProjectRuntime enum of constants.ts (not under
src); the spec's "two supported generations" of the execution platform, used in
the source as ProjectRuntime.one and ProjectRuntime.beta. -/
inductive ProjectRuntime where
  | one
  | beta
  deriving DecidableEq, Repr

/-- Modelled from the spec: the ProjectLanguage enum values of constants.ts
(not under src) that the TemplateData code compares against. -/
def ProjectLanguage.Java : String := "Java"

/-- Modelled from the spec: the JavaScript member of the ProjectLanguage enum. -/
def ProjectLanguage.JavaScript : String := "JavaScript"

/-- Modelled from the spec: the C# member of the ProjectLanguage enum. -/
def ProjectLanguage.CSharp : String := "C#"

/-- Modelled from the spec: the TemplateFilter enum values of constants.ts
(not under src). -/
def TemplateFilter.All : String := "All"

/-- Modelled from the spec: the Core member of the TemplateFilter enum. -/
def TemplateFilter.Core : String := "Core"

/-- Modelled from the spec: the Verified member of the TemplateFilter enum. -/
def TemplateFilter.Verified : String := "Verified"

/-- Modelled from the spec: the Core member of the TemplateCategory enum of
IFunctionTemplate.ts (not under src). -/
def TemplateCategory.Core : String := "Core"

/-- A parsed function template: a flat value object with an id, a display
name, a language tag and category tags (IFunctionTemplate of
IFunctionTemplate.ts, restricted to the fields the code under verification
reads). -/
structure IFunctionTemplate where
  id : String
  name : String
  language : String
  categories : List String
  deriving DecidableEq, Repr

/-- The hardcoded list of verified template ids for the v1 runtime. -/
def verifiedV1Templates : List String :=
  [ "BlobTrigger-JavaScript",
    "GenericWebHook-JavaScript",
    "GitHubWebHook-JavaScript",
    "HttpTrigger-JavaScript",
    "HttpTriggerWithParameters-JavaScript",
    "ManualTrigger-JavaScript",
    "QueueTrigger-JavaScript",
    "TimerTrigger-JavaScript",
    "Azure.Function.CSharp.HttpTrigger.1.x",
    "Azure.Function.CSharp.BlobTrigger.1.x",
    "Azure.Function.CSharp.QueueTrigger.1.x",
    "Azure.Function.CSharp.TimerTrigger.1.x" ]

/-- The hardcoded list of verified template ids for the v2 (beta) runtime. -/
def verifiedV2Templates : List String :=
  [ "BlobTrigger-JavaScript",
    "HttpTrigger-JavaScript",
    "QueueTrigger-JavaScript",
    "TimerTrigger-JavaScript",
    "Azure.Function.CSharp.HttpTrigger.2.x",
    "Azure.Function.CSharp.BlobTrigger.2.x",
    "Azure.Function.CSharp.QueueTrigger.2.x",
    "Azure.Function.CSharp.TimerTrigger.2.x" ]

/-- The hardcoded list of verified Java template ids. -/
def verifiedJavaTemplates : List String :=
  [ "HttpTrigger",
    "BlobTrigger",
    "QueueTrigger",
    "TimerTrigger" ]

/-- JavaScript String.prototype.toLowerCase, modelled characterwise over the
string's characters (the strings the code compares are ASCII). -/
def toLowerCase (s : String) : String :=
  String.mk (s.data.map Char.toLower)

/-- JavaScript truthiness of the result of Array.prototype.find over strings:
the find is truthy when an element was found and that element is not the empty
string (the source uses the found string itself in boolean position). -/
def findTruthy (l : List String) (p : String → Bool) : Bool :=
  match l.find? p with
  | none => false
  | some s => s != ""

/-- removeLanguageFromId: the id prefix before the first dash
(id.split with dash, first element). -/
def removeLanguageFromId (id : String) : String :=
  String.mk (id.data.takeWhile (fun c => c != '-'))

/-- The recheck-internet error message thrown by getTemplates when no entry
exists for the requested runtime (the localize call of the source is modelled
by its default English string, localize.ts not being under src). -/
def noInternetErrMsg : String :=
  "There was an error in retrieving the templates.  Recheck your internet connection and try again."

/-- The main container for parsed template data: a map from runtime to the
parsed templates for that runtime (absent when no tier produced templates). -/
structure TemplateData where
  templatesMap : ProjectRuntime → Option (List IFunctionTemplate)

/-- TemplateData.getTemplates: throws (models as Except.error) when the map
has no entry for the runtime; for Java, returns the verified JavaScript
templates; otherwise filters by language (lowercased comparison) and then by
the requested template filter. -/
def TemplateData.getTemplates (td : TemplateData) (language : String)
    (runtime : ProjectRuntime) (templateFilter : Option String) :
    Except String (List IFunctionTemplate) :=
  match td.templatesMap runtime with
  | none => Except.error noInternetErrMsg
  | some templates =>
    if language = ProjectLanguage.Java then
      let javaTemplates : List IFunctionTemplate :=
        templates.filter (fun t => t.language == ProjectLanguage.JavaScript)
      Except.ok (javaTemplates.filter (fun t =>
        findTruthy verifiedJavaTemplates (fun vt => vt == removeLanguageFromId t.id)))
    else
      let filterTemplates : List IFunctionTemplate :=
        templates.filter (fun t => toLowerCase t.language == toLowerCase language)
      if templateFilter = some TemplateFilter.All then
        Except.ok filterTemplates
      else if templateFilter = some TemplateFilter.Core then
        Except.ok (filterTemplates.filter (fun t =>
          t.categories.contains TemplateCategory.Core))
      else
        -- TemplateFilter.Verified and the default case of the source switch coincide
        let verifiedTemplates : List String :=
          if runtime = ProjectRuntime.one then verifiedV1Templates else verifiedV2Templates
        Except.ok (filterTemplates.filter (fun t =>
          findTruthy verifiedTemplates (fun vt => vt == t.id)))

/-- Whether the pattern occurs as a contiguous run inside the character list
(the model of JavaScript String.prototype.includes). -/
def containsSub (pat : List Char) : List Char → Bool
  | [] => pat.isEmpty
  | c :: rest => pat.isPrefixOf (c :: rest) || containsSub pat rest

/-- id.includes applied to the CSharp marker, used to drop the dotnet verified
templates when the .NET CLI is absent. -/
def includesCSharp (id : String) : Bool :=
  containsSub "CSharp".data id.data

/-- The for loop of verifyTemplatesByRuntime: throws at the first verified id
that no parsed template carries. -/
def findMissingVerifiedTemplate (verifiedTemplates : List String)
    (templates : List IFunctionTemplate) : Except String Unit :=
  match verifiedTemplates.find? (fun id => !(templates.any (fun t => t.id == id))) with
  | some missingId =>
    Except.error ("Failed to find verified template with id \x22" ++ missingId ++ "\x22.")
  | none => Except.ok ()

/-- verifyTemplatesByRuntime: picks the verified id list for the runtime,
drops the CSharp ids when the .NET CLI is not installed, and throws at the
first verified id that no parsed template carries. -/
def verifyTemplatesByRuntime (dotnetInstalled : Bool)
    (templates : List IFunctionTemplate) (runtime : ProjectRuntime) :
    Except String Unit :=
  let verified0 : List String :=
    if runtime = ProjectRuntime.one then verifiedV1Templates else verifiedV2Templates
  let verifiedTemplates : List String :=
    if dotnetInstalled then verified0
    else verified0.filter (fun id => !(includesCSharp id))
  findMissingVerifiedTemplate verifiedTemplates templates

/-- One release entry of the cli feed: the download urls the code reads. -/
structure CliFeedRelease where
  templateApiZip : String
  projectTemplates : String
  itemTemplates : String
  deriving DecidableEq, Repr

/-- The cli feed manifest, restricted to the part the resolver reads: the map
from version string to release entry (an absent version models the undefined
property access that throws in the source). -/
structure CliFeedJson where
  releases : String → Option CliFeedRelease

/-- The external world of the resolver: every await that can fail is a
fallible function. downloadFile, extractTemplates, dotnetListTemplates model
the network, zip extraction and the dotnet template engine; the three read
functions model the JSON files read from the extracted archive of a given
version; parseScriptTemplates and parseDotnetTemplates model the parsers of
parseScriptTemplates.ts and parseDotnetTemplates.ts (not under src), which can
throw on malformed data; v1ReleaseVersion and betaReleaseVersion model the
hardcoded backup version constants of constants.ts (not under src). -/
structure World where
  dotnetInstalled : Bool
  extractTemplates : String → Except String Unit
  downloadFile : String → Except String Unit
  dotnetListTemplates : ProjectRuntime → Except String (List RawJson)
  readRawResources : String → Except String RawJson
  readRawTemplates : String → Except String (List RawJson)
  readRawConfig : String → Except String RawJson
  parseScriptTemplates : RawJson → List RawJson → RawJson → Except String (List IFunctionTemplate)
  parseDotnetTemplates : List RawJson → ProjectRuntime → Except String (List IFunctionTemplate)
  v1ReleaseVersion : String
  betaReleaseVersion : String

/-- The persisted global state (vscode.Memento), restricted to the keys the
resolver reads and writes; the per-runtime key naming of getRuntimeKey is
absorbed into per-runtime fields. -/
structure Memento where
  templateVersion : ProjectRuntime → Option String
  rawTemplates : ProjectRuntime → Option (List RawJson)
  rawConfig : ProjectRuntime → Option RawJson
  rawResources : ProjectRuntime → Option RawJson
  rawDotnetTemplates : ProjectRuntime → Option (List RawJson)

/-- downloadAndExtractCSharpTemplates: returns the empty list when the .NET
CLI is not installed; otherwise downloads the project and item templates of
the release and lists them through the dotnet template engine. -/
def downloadAndExtractCSharpTemplates (w : World) (cliFeedJson : CliFeedJson)
    (templateVersion : String) (runtime : ProjectRuntime) :
    Except String (List RawJson) :=
  if !w.dotnetInstalled then
    Except.ok []
  else
    match cliFeedJson.releases templateVersion with
    | none => Except.error "Cannot read property of undefined release"
    | some release =>
      match w.downloadFile release.projectTemplates with
      | Except.error e => Except.error e
      | Except.ok _ =>
        match w.downloadFile release.itemTemplates with
        | Except.error e => Except.error e
        | Except.ok _ => w.dotnetListTemplates runtime

/-- Everything the try block of tryGetParsedTemplateDataFromCliFeed produced
when it reached the cache update: the parsed templates and the raw data that
gets persisted. -/
structure FeedFetchResult where
  templates : List IFunctionTemplate
  rawTemplates : List RawJson
  rawConfig : RawJson
  rawResources : RawJson
  rawDotnetTemplates : List RawJson

/-- The try block of tryGetParsedTemplateDataFromCliFeed up to and including
verifyTemplatesByRuntime: download and extract the template archive, download
and list the dotnet templates, read the three raw JSON files, parse, then
verify; the first failing step aborts the block. -/
def cliFeedComputation (w : World) (cliFeedJson : CliFeedJson)
    (templateVersion : String) (runtime : ProjectRuntime) :
    Except String FeedFetchResult :=
  match cliFeedJson.releases templateVersion with
  | none => Except.error "Cannot read property templateApiZip of undefined"
  | some release =>
    match w.extractTemplates release.templateApiZip with
    | Except.error e => Except.error e
    | Except.ok _ =>
      match downloadAndExtractCSharpTemplates w cliFeedJson templateVersion runtime with
      | Except.error e => Except.error e
      | Except.ok rawCSharpTemplates =>
        match w.readRawResources templateVersion with
        | Except.error e => Except.error e
        | Except.ok rawResources =>
          match w.readRawTemplates templateVersion with
          | Except.error e => Except.error e
          | Except.ok rawTemplates =>
            match w.readRawConfig templateVersion with
            | Except.error e => Except.error e
            | Except.ok rawConfig =>
              match w.parseScriptTemplates rawResources rawTemplates rawConfig with
              | Except.error e => Except.error e
              | Except.ok scriptTemplates =>
                match w.parseDotnetTemplates rawCSharpTemplates runtime with
                | Except.error e => Except.error e
                | Except.ok dotnetTemplates =>
                  match verifyTemplatesByRuntime w.dotnetInstalled
                      (scriptTemplates ++ dotnetTemplates) runtime with
                  | Except.error e => Except.error e
                  | Except.ok () =>
                    Except.ok { templates := scriptTemplates ++ dotnetTemplates,
                                rawTemplates := rawTemplates,
                                rawConfig := rawConfig,
                                rawResources := rawResources,
                                rawDotnetTemplates := rawCSharpTemplates }

/-- The five globalState.update calls of tryGetParsedTemplateDataFromCliFeed:
store the template version and the raw data for the runtime. -/
def applyCacheWrite (gs : Memento) (runtime : ProjectRuntime)
    (templateVersion : String) (r : FeedFetchResult) : Memento :=
  { templateVersion := fun rt =>
      if rt = runtime then some templateVersion else gs.templateVersion rt,
    rawTemplates := fun rt =>
      if rt = runtime then some r.rawTemplates else gs.rawTemplates rt,
    rawConfig := fun rt =>
      if rt = runtime then some r.rawConfig else gs.rawConfig rt,
    rawResources := fun rt =>
      if rt = runtime then some r.rawResources else gs.rawResources rt,
    rawDotnetTemplates := fun rt =>
      if rt = runtime then some r.rawDotnetTemplates else gs.rawDotnetTemplates rt }

/-- tryGetParsedTemplateDataFromCliFeed: runs the try block; on any error the
catch returns undefined and the persisted state is untouched; on success the
cache entries are updated (when a global state was supplied) and the parsed
templates are returned. -/
def tryGetParsedTemplateDataFromCliFeed (w : World) (cliFeedJson : CliFeedJson)
    (templateVersion : String) (runtime : ProjectRuntime)
    (globalState : Option Memento) :
    Option (List IFunctionTemplate) × Option Memento :=
  match cliFeedComputation w cliFeedJson templateVersion runtime with
  | Except.error _ => (none, globalState)
  | Except.ok r =>
    match globalState with
    | none => (some r.templates, none)
    | some gs => (some r.templates, some (applyCacheWrite gs runtime templateVersion r))

/-- The template list the try block of tryGetParsedTemplateDataFromCache
accumulates in its local variable: script templates parsed from the cached
raw data when all three entries are present, concatenated with the parsed
cached dotnet templates; a parse error is caught and aborts the block. -/
def cachedTemplatesComputation (w : World) (runtime : ProjectRuntime)
    (gs : Memento) : List IFunctionTemplate :=
  let script : Except String (List IFunctionTemplate) :=
    match gs.rawResources runtime, gs.rawTemplates runtime, gs.rawConfig runtime with
    | some cachedResources, some cachedTemplates, some cachedConfig =>
      w.parseScriptTemplates cachedResources cachedTemplates cachedConfig
    | _, _, _ => Except.ok []
  match script with
  | Except.error _ => []
  | Except.ok templates =>
    match gs.rawDotnetTemplates runtime with
    | none => templates
    | some cachedDotnetTemplates =>
      match w.parseDotnetTemplates cachedDotnetTemplates runtime with
      | Except.error _ => templates
      | Except.ok dotnet => templates ++ dotnet

/-- tryGetParsedTemplateDataFromCache: parses the cached raw data into its
local variable, but the source function ends with a plain return of undefined,
so the parsed list is never returned. -/
def tryGetParsedTemplateDataFromCache (w : World) (runtime : ProjectRuntime)
    (gs : Memento) : Option (List IFunctionTemplate) :=
  let _templates := cachedTemplatesComputation w runtime gs
  none

/-- The four template sources of getTemplateData, named after the
templateSource telemetry values the source assigns. -/
inductive Tier where
  | matchingCache
  | cliFeed
  | mismatchCache
  | backupCliFeed
  deriving DecidableEq, Repr

/-- The running state of the per-runtime body of getTemplateData: the value of
the parsedTemplatesByRuntime local, the tiers attempted so far with the result
each produced, and the persisted state as updated so far. -/
structure ResolveOutcome where
  result : Option (List IFunctionTemplate)
  attempts : List (Tier × Option (List IFunctionTemplate))
  finalState : Option Memento

/-- Tier 1 of getTemplateData: use the cached templates if the stored template
version for the runtime is strictly equal to the resolved template version
(both possibly undefined). -/
def runTier1 (w : World) (templateVersion : Option String)
    (globalState : Option Memento) (runtime : ProjectRuntime) : ResolveOutcome :=
  match globalState with
  | some gs =>
    if gs.templateVersion runtime = templateVersion then
      let r := tryGetParsedTemplateDataFromCache w runtime gs
      { result := r, attempts := [(Tier.matchingCache, r)], finalState := globalState }
    else
      { result := none, attempts := [], finalState := globalState }
  | none => { result := none, attempts := [], finalState := globalState }

/-- Tier 2 of getTemplateData: download from the cli feed at the resolved
template version, when no earlier tier produced a result, a feed manifest is
available and the version is truthy. -/
def runTier2 (w : World) (cliFeedJson : Option CliFeedJson)
    (templateVersion : Option String) (runtime : ProjectRuntime)
    (o : ResolveOutcome) : ResolveOutcome :=
  if o.result.isNone then
    match cliFeedJson, templateVersion with
    | some feed, some v =>
      if v == "" then o  -- the empty string is falsy in the source guard
      else
        let p := tryGetParsedTemplateDataFromCliFeed w feed v runtime o.finalState
        { result := p.1, attempts := o.attempts ++ [(Tier.cliFeed, p.1)],
          finalState := p.2 }
    | _, _ => o
  else o

/-- Tier 3 of getTemplateData: use the cached templates even when the stored
version does not match, when no earlier tier produced a result and a global
state was supplied. -/
def runTier3 (w : World) (runtime : ProjectRuntime) (o : ResolveOutcome) :
    ResolveOutcome :=
  if o.result.isNone then
    match o.finalState with
    | some gs =>
      let r := tryGetParsedTemplateDataFromCache w runtime gs
      { result := r, attempts := o.attempts ++ [(Tier.mismatchCache, r)],
        finalState := o.finalState }
    | none => o
  else o

/-- Tier 4 of getTemplateData: download from the cli feed at the hardcoded
backup version for the runtime, when no earlier tier produced a result and a
feed manifest is available. -/
def runTier4 (w : World) (cliFeedJson : Option CliFeedJson)
    (runtime : ProjectRuntime) (o : ResolveOutcome) : ResolveOutcome :=
  if o.result.isNone then
    match cliFeedJson with
    | some feed =>
      let backupVersion : String :=
        if runtime = ProjectRuntime.one then w.v1ReleaseVersion else w.betaReleaseVersion
      let p := tryGetParsedTemplateDataFromCliFeed w feed backupVersion runtime o.finalState
      { result := p.1, attempts := o.attempts ++ [(Tier.backupCliFeed, p.1)],
        finalState := p.2 }
    | none => o
  else o

/-- The per-runtime body of getTemplateData: the four tiers in source order. -/
def getTemplateDataForRuntime (w : World) (cliFeedJson : Option CliFeedJson)
    (templateVersion : Option String) (globalState : Option Memento)
    (runtime : ProjectRuntime) : ResolveOutcome :=
  runTier4 w cliFeedJson runtime
    (runTier3 w runtime
      (runTier2 w cliFeedJson templateVersion runtime
        (runTier1 w templateVersion globalState runtime)))

/-- getTemplateData: resolves the templates for each runtime in enum order
(the persisted state updated by one runtime is visible to the next) and stores
in the templates map every runtime for which a tier produced a result. -/
def getTemplateData (w : World) (cliFeedJson : Option CliFeedJson)
    (templateVersion : ProjectRuntime → Option String)
    (globalState : Option Memento) : TemplateData × Option Memento :=
  let o1 := getTemplateDataForRuntime w cliFeedJson
    (templateVersion ProjectRuntime.one) globalState ProjectRuntime.one
  let o2 := getTemplateDataForRuntime w cliFeedJson
    (templateVersion ProjectRuntime.beta) o1.finalState ProjectRuntime.beta
  (⟨fun rt => match rt with
      | ProjectRuntime.one => o1.result
      | ProjectRuntime.beta => o2.result⟩,
   o2.finalState)

/-- The result of the last attempted tier (none when no tier was attempted):
the value the parsedTemplatesByRuntime local holds after the recorded
attempts. -/
def lastResult (attempts : List (Tier × Option (List IFunctionTemplate))) :
    Option (List IFunctionTemplate) :=
  match attempts.getLast? with
  | none => none
  | some p => p.2

/-- Invariant of the per-runtime resolver state: every attempt before the last
produced no result, the running result is the last attempt's result, and every
produced result is a nonempty list. -/
def OutcomeInv (o : ResolveOutcome) : Prop :=
  (o.attempts.dropLast.all fun p => p.2.isNone) = true ∧
  o.result = lastResult o.attempts ∧
  (o.attempts.all fun p => p.2.elim true fun ts => !ts.isEmpty) = true

/-- A sample parsed template used to evaluate the theorems on concrete data. -/
def sampleTemplate : IFunctionTemplate :=
  { id := "HttpTrigger-JavaScript",
    name := "HTTP trigger",
    language := "JavaScript",
    categories := ["Core"] }

/-- Sample template data with the sample template stored for both runtimes. -/
def sampleTemplateDataBoth : TemplateData :=
  ⟨fun _ => some [sampleTemplate]⟩

/-- A world in which every network access fails (the feed is unreachable). -/
def failingWorld : World :=
  { dotnetInstalled := false,
    extractTemplates := fun _ => Except.error "network unreachable",
    downloadFile := fun _ => Except.error "network unreachable",
    dotnetListTemplates := fun _ => Except.error "network unreachable",
    readRawResources := fun _ => Except.error "network unreachable",
    readRawTemplates := fun _ => Except.error "network unreachable",
    readRawConfig := fun _ => Except.error "network unreachable",
    parseScriptTemplates := fun _ _ _ => Except.ok [],
    parseDotnetTemplates := fun _ _ => Except.ok [],
    v1ReleaseVersion := "1.0.0",
    betaReleaseVersion := "2.0.0" }

/-- A sample cli feed manifest knowing a single release. -/
def sampleFeed : CliFeedJson :=
  ⟨fun v => if v = "2.0.0"
    then some ⟨"templateApiZipUrl", "projectTemplatesUrl", "itemTemplatesUrl"⟩
    else none⟩

/-! ## Helper lemmas -/

/-- When a list contains no empty string, the truthiness of finding an element
equal to a given string coincides with plain membership. -/
theorem findTruthy_eq_contains (l : List String) (s : String)
    (hl : (l.all fun a => a != "") = true) :
    findTruthy l (fun a => a == s) = l.contains s := by
  induction l with
  | nil => rfl
  | cons a t ih =>
    simp only [List.all_cons, Bool.and_eq_true] at hl
    cases h : a == s with
    | true =>
      have h' : a = s := eq_of_beq h
      subst h'
      simp [findTruthy, List.find?_cons, hl.1, List.contains_cons]
    | false =>
      have h2 : (s == a) = false := by
        cases h3 : s == a with
        | true => rw [eq_of_beq h3] at h; simp at h
        | false => rfl
      have ih2 := ih hl.2
      simp only [findTruthy, List.find?_cons, h, List.contains_cons, h2,
        Bool.false_or] at ih2 ⊢
      exact ih2

/-- Reduction of the Java branch of getTemplates: the result ignores the
template filter and is the double filter of the stored list. -/
theorem getTemplates_java_eq (td : TemplateData) (ts : List IFunctionTemplate)
    (rt : ProjectRuntime) (f : Option String)
    (hmap : td.templatesMap rt = some ts) :
    td.getTemplates ProjectLanguage.Java rt f =
      Except.ok ((ts.filter fun t => t.language == ProjectLanguage.JavaScript).filter
        fun t => findTruthy verifiedJavaTemplates
          fun vt => vt == removeLanguageFromId t.id) := by
  simp only [TemplateData.getTemplates, hmap, if_true]

/-! ## Claims about TemplateData.getTemplates -/

/-- Claim C5 counterexample: the language comparison of getTemplates is not
plain string equality: requesting language javascript (lowercase) selects the
sample template whose language tag is JavaScript, although the two strings
differ. -/
theorem language_filter_case_insensitive_counterexample :
    sampleTemplateDataBoth.getTemplates "javascript" ProjectRuntime.one (some "All") =
      Except.ok [sampleTemplate] ∧ sampleTemplate.language ≠ "javascript" := by
  exact ⟨rfl, by decide⟩

/-- Claim C5 (amended): for every non-Java language, runtime and filter, a
template is included in the getTemplates result only if its language tag
equals the requested language after lowercasing both (case-insensitive
comparison). -/
theorem language_filter_matches_ignoring_case (td : TemplateData)
    (language : String) (rt : ProjectRuntime) (filt : Option String)
    (l : List IFunctionTemplate) (t : IFunctionTemplate)
    (hjava : language ≠ ProjectLanguage.Java)
    (hok : td.getTemplates language rt filt = Except.ok l)
    (ht : t ∈ l) :
    toLowerCase t.language = toLowerCase language := by
  cases hmap : td.templatesMap rt with
  | none =>
    simp only [TemplateData.getTemplates, hmap] at hok
    exact Except.noConfusion hok
  | some ts =>
    simp only [TemplateData.getTemplates, hmap, if_neg hjava] at hok
    by_cases hAll : filt = some TemplateFilter.All
    · rw [if_pos hAll] at hok
      injection hok with h
      subst h
      exact eq_of_beq (List.mem_filter.mp ht).2
    · rw [if_neg hAll] at hok
      by_cases hCore : filt = some TemplateFilter.Core
      · rw [if_pos hCore] at hok
        injection hok with h
        subst h
        exact eq_of_beq (List.mem_filter.mp (List.mem_filter.mp ht).1).2
      · rw [if_neg hCore] at hok
        injection hok with h
        subst h
        exact eq_of_beq (List.mem_filter.mp (List.mem_filter.mp ht).1).2

/-- Witness for the amended claim C5 at a concrete input. -/
theorem language_filter_matches_ignoring_case_witness :
    ("javascript" ≠ ProjectLanguage.Java) ∧
    (sampleTemplateDataBoth.getTemplates "javascript" ProjectRuntime.one (some "All") =
      Except.ok [sampleTemplate]) ∧
    (sampleTemplate ∈ [sampleTemplate]) ∧
    toLowerCase sampleTemplate.language = toLowerCase "javascript" := by
  refine ⟨by decide, rfl, List.mem_singleton.mpr rfl, ?_⟩
  exact language_filter_matches_ignoring_case sampleTemplateDataBoth "javascript"
    ProjectRuntime.one (some "All") [sampleTemplate] sampleTemplate
    (by decide) rfl (List.mem_singleton.mpr rfl)

/-- Claim C7: getTemplates is read-only over the parsed model: the returned
list is a sublist (subsequence) of the stored list for the requested runtime.
In this purely functional embedding the method is a function of the
TemplateData value alone, so the underlying map cannot change and repeated
calls with the same arguments agree definitionally; the substantive content
is the subsequence property. -/
theorem getTemplates_readonly_sublist (td : TemplateData) (ts : List IFunctionTemplate)
    (lang : String) (rt : ProjectRuntime) (filt : Option String)
    (l : List IFunctionTemplate)
    (hmap : td.templatesMap rt = some ts)
    (hok : td.getTemplates lang rt filt = Except.ok l) :
    l.Sublist ts := by
  simp only [TemplateData.getTemplates, hmap] at hok
  by_cases hjava : lang = ProjectLanguage.Java
  · rw [if_pos hjava] at hok
    injection hok with h
    subst h
    exact (List.filter_sublist _).trans (List.filter_sublist _)
  · rw [if_neg hjava] at hok
    by_cases hAll : filt = some TemplateFilter.All
    · rw [if_pos hAll] at hok
      injection hok with h
      subst h
      exact List.filter_sublist _
    · rw [if_neg hAll] at hok
      by_cases hCore : filt = some TemplateFilter.Core
      · rw [if_pos hCore] at hok
        injection hok with h
        subst h
        exact (List.filter_sublist _).trans (List.filter_sublist _)
      · rw [if_neg hCore] at hok
        injection hok with h
        subst h
        exact (List.filter_sublist _).trans (List.filter_sublist _)

/-- Witness for claim C7 at a concrete input. -/
theorem getTemplates_readonly_sublist_witness :
    (sampleTemplateDataBoth.templatesMap ProjectRuntime.one = some [sampleTemplate]) ∧
    (sampleTemplateDataBoth.getTemplates "JavaScript" ProjectRuntime.one (some "All") =
      Except.ok [sampleTemplate]) ∧
    List.Sublist [sampleTemplate] [sampleTemplate] := by
  refine ⟨rfl, rfl, ?_⟩
  exact getTemplates_readonly_sublist sampleTemplateDataBoth [sampleTemplate]
    "JavaScript" ProjectRuntime.one (some "All") [sampleTemplate] rfl rfl

/-- Claim C8: getTemplates throws the recheck-internet message exactly when
the templates map has no entry for the requested runtime; when an entry
exists, even an empty list, the call returns a list without throwing. -/
theorem getTemplates_throws_iff_no_entry (td : TemplateData) (lang : String)
    (rt : ProjectRuntime) (filt : Option String) :
    (td.getTemplates lang rt filt = Except.error noInternetErrMsg ↔
      td.templatesMap rt = none) ∧
    (td.templatesMap rt = none ∨
      ∃ l, td.getTemplates lang rt filt = Except.ok l) := by
  cases hmap : td.templatesMap rt with
  | none =>
    refine ⟨⟨fun _ => rfl, fun _ => ?_⟩, Or.inl rfl⟩
    simp [TemplateData.getTemplates, hmap]
  | some ts =>
    have hex : ∃ l, td.getTemplates lang rt filt = Except.ok l := by
      simp only [TemplateData.getTemplates, hmap]
      by_cases hjava : lang = ProjectLanguage.Java
      · rw [if_pos hjava]; exact ⟨_, rfl⟩
      · rw [if_neg hjava]
        by_cases hAll : filt = some TemplateFilter.All
        · rw [if_pos hAll]; exact ⟨_, rfl⟩
        · rw [if_neg hAll]
          by_cases hCore : filt = some TemplateFilter.Core
          · rw [if_pos hCore]; exact ⟨_, rfl⟩
          · rw [if_neg hCore]; exact ⟨_, rfl⟩
    obtain ⟨l, hl⟩ := hex
    refine ⟨⟨fun he => ?_, fun hn => ?_⟩, Or.inr ⟨l, hl⟩⟩
    · rw [he] at hl; exact Except.noConfusion hl
    · exact Option.noConfusion hn

/-- Claim C9: for the Java language, getTemplates ignores the template filter
argument entirely and returns exactly the stored templates whose language tag
is JavaScript and whose id prefix before the first dash is one of the four
verified Java trigger names. -/
theorem java_uses_verified_javascript_templates (td : TemplateData)
    (rt : ProjectRuntime) (f1 f2 : Option String) (ts : List IFunctionTemplate)
    (hmap : td.templatesMap rt = some ts) :
    td.getTemplates ProjectLanguage.Java rt f1 =
      td.getTemplates ProjectLanguage.Java rt f2 ∧
    td.getTemplates ProjectLanguage.Java rt f1 =
      Except.ok (ts.filter fun t =>
        t.language == ProjectLanguage.JavaScript &&
        ["HttpTrigger", "BlobTrigger", "QueueTrigger", "TimerTrigger"].contains
          (removeLanguageFromId t.id)) := by
  constructor
  · rw [getTemplates_java_eq td ts rt f1 hmap, getTemplates_java_eq td ts rt f2 hmap]
  · rw [getTemplates_java_eq td ts rt f1 hmap]
    congr 1
    rw [List.filter_filter]
    apply List.filter_congr
    intro t _
    have hjs : findTruthy verifiedJavaTemplates
        (fun vt => vt == removeLanguageFromId t.id) =
        verifiedJavaTemplates.contains (removeLanguageFromId t.id) :=
      findTruthy_eq_contains verifiedJavaTemplates (removeLanguageFromId t.id)
        (by decide)
    rw [hjs, Bool.and_comm]
    rfl

/-- Witness for claim C9 at a concrete input. -/
theorem java_uses_verified_javascript_templates_witness :
    (sampleTemplateDataBoth.templatesMap ProjectRuntime.beta = some [sampleTemplate]) ∧
    (sampleTemplateDataBoth.getTemplates ProjectLanguage.Java ProjectRuntime.beta none =
      sampleTemplateDataBoth.getTemplates ProjectLanguage.Java ProjectRuntime.beta (some "Core") ∧
    sampleTemplateDataBoth.getTemplates ProjectLanguage.Java ProjectRuntime.beta none =
      Except.ok ([sampleTemplate].filter fun t =>
        t.language == ProjectLanguage.JavaScript &&
        ["HttpTrigger", "BlobTrigger", "QueueTrigger", "TimerTrigger"].contains
          (removeLanguageFromId t.id))) := by
  exact ⟨rfl, java_uses_verified_javascript_templates sampleTemplateDataBoth
    ProjectRuntime.beta none (some "Core") [sampleTemplate] rfl⟩

/-- The verification loop succeeds exactly when every verified id is carried
by some template. -/
theorem findMissing_ok_iff (L : List String) (ts : List IFunctionTemplate) :
    findMissingVerifiedTemplate L ts = Except.ok () ↔
    (L.all fun id => ts.any fun t => t.id == id) = true := by
  unfold findMissingVerifiedTemplate
  cases hf : L.find? (fun id => !(ts.any fun t => t.id == id)) with
  | none =>
    simp only []
    constructor
    · intro _
      rw [List.all_eq_true]
      intro x hx
      have hx2 := List.find?_eq_none.mp hf x hx
      simpa using hx2
    · intro _; trivial
  | some m =>
    simp only []
    constructor
    · intro h; exact Except.noConfusion h
    · intro hall
      have hm := List.find?_some hf
      have hmem := List.mem_of_find?_eq_some hf
      rw [List.all_eq_true] at hall
      have hx := hall m hmem
      rw [hx] at hm
      simp at hm

/-- A verification loop over the empty template list succeeds only when the
verified id list itself is empty. -/
theorem findMissing_nil_ok (L : List String)
    (h : findMissingVerifiedTemplate L ([] : List IFunctionTemplate) = Except.ok ()) :
    L = [] := by
  have h2 := (findMissing_ok_iff L []).mp h
  rw [List.all_eq_true] at h2
  cases L with
  | nil => rfl
  | cons a t =>
    have ha := h2 a (by simp)
    simp at ha

/-- A successful verification forces the template list to be nonempty: the
verified id list is nonempty for every runtime whether or not the .NET CLI is
installed. -/
theorem verify_ok_ne_nil (d : Bool) (ts : List IFunctionTemplate)
    (rt : ProjectRuntime) (h : verifyTemplatesByRuntime d ts rt = Except.ok ()) :
    ts ≠ [] := by
  intro hnil
  subst hnil
  cases rt <;> cases d
  · exact absurd
      (findMissing_nil_ok (verifiedV1Templates.filter fun id => !(includesCSharp id)) h)
      (by decide)
  · exact absurd (findMissing_nil_ok verifiedV1Templates h) (by decide)
  · exact absurd
      (findMissing_nil_ok (verifiedV2Templates.filter fun id => !(includesCSharp id)) h)
      (by decide)
  · exact absurd (findMissing_nil_ok verifiedV2Templates h) (by decide)

/-- Claim C6: verified-template selection distinguishes exactly the two
runtime generations: for runtime one the verified V1 id list is used and for
the other runtime (beta) the verified V2 id list, both in the Verified and
default filter branch of getTemplates and in verifyTemplatesByRuntime. -/
theorem verified_templates_two_generations :
    (∀ (td : TemplateData) (ts : List IFunctionTemplate) (language : String)
      (filt : Option String),
      language ≠ ProjectLanguage.Java →
      filt ≠ some TemplateFilter.All →
      filt ≠ some TemplateFilter.Core →
      (td.templatesMap ProjectRuntime.one = some ts →
        td.getTemplates language ProjectRuntime.one filt =
          Except.ok ((ts.filter fun t =>
            toLowerCase t.language == toLowerCase language).filter fun t =>
            findTruthy verifiedV1Templates fun vt => vt == t.id)) ∧
      (td.templatesMap ProjectRuntime.beta = some ts →
        td.getTemplates language ProjectRuntime.beta filt =
          Except.ok ((ts.filter fun t =>
            toLowerCase t.language == toLowerCase language).filter fun t =>
            findTruthy verifiedV2Templates fun vt => vt == t.id))) ∧
    (∀ (d : Bool) (ts : List IFunctionTemplate),
      (verifyTemplatesByRuntime d ts ProjectRuntime.one = Except.ok () ↔
        ((if d then verifiedV1Templates
          else verifiedV1Templates.filter fun id => !(includesCSharp id)).all
          fun id => ts.any fun t => t.id == id) = true) ∧
      (verifyTemplatesByRuntime d ts ProjectRuntime.beta = Except.ok () ↔
        ((if d then verifiedV2Templates
          else verifiedV2Templates.filter fun id => !(includesCSharp id)).all
          fun id => ts.any fun t => t.id == id) = true)) := by
  constructor
  · intro td ts language filt hjava hAll hCore
    constructor <;> intro hmap <;>
      simp only [TemplateData.getTemplates, hmap, if_neg hjava, if_neg hAll,
        if_neg hCore] <;> rfl
  · intro d ts
    exact ⟨findMissing_ok_iff _ ts, findMissing_ok_iff _ ts⟩

/-- Witness for claim C6 at concrete inputs. -/
theorem verified_templates_two_generations_witness :
    ("JavaScript" ≠ ProjectLanguage.Java) ∧
    ((none : Option String) ≠ some TemplateFilter.All) ∧
    ((none : Option String) ≠ some TemplateFilter.Core) ∧
    (sampleTemplateDataBoth.templatesMap ProjectRuntime.one = some [sampleTemplate]) ∧
    (sampleTemplateDataBoth.getTemplates "JavaScript" ProjectRuntime.one none =
      Except.ok (([sampleTemplate].filter fun t =>
        toLowerCase t.language == toLowerCase "JavaScript").filter fun t =>
        findTruthy verifiedV1Templates fun vt => vt == t.id)) ∧
    (verifyTemplatesByRuntime true [] ProjectRuntime.beta = Except.ok () ↔
      ((if true then verifiedV2Templates
        else verifiedV2Templates.filter fun id => !(includesCSharp id)).all
        fun id => ([] : List IFunctionTemplate).any fun t => t.id == id) = true) := by
  refine ⟨by decide, by decide, by decide, rfl, ?_, ?_⟩
  · exact ((verified_templates_two_generations.1 sampleTemplateDataBoth
      [sampleTemplate] "JavaScript" none (by decide) (by decide) (by decide)).1 rfl)
  · exact (verified_templates_two_generations.2 true []).2

/-! ## Helper lemmas about the feed fetch and the resolver -/

/-- A successful feed computation passed the template verification. -/
theorem cliFeedComputation_ok_verify (w : World) (f : CliFeedJson) (v : String)
    (rt : ProjectRuntime) (r : FeedFetchResult)
    (h : cliFeedComputation w f v rt = Except.ok r) :
    verifyTemplatesByRuntime w.dotnetInstalled r.templates rt = Except.ok () := by
  unfold cliFeedComputation at h
  repeat' split at h
  all_goals first
    | exact Except.noConfusion h
    | (injection h with h2; subst h2; dsimp only; assumption)

/-- A successful feed fetch never returns the empty template list. -/
theorem feed_result_ne_nil (w : World) (f : CliFeedJson) (v : String)
    (rt : ProjectRuntime) (gs : Option Memento) (l : List IFunctionTemplate)
    (s2 : Option Memento)
    (h : tryGetParsedTemplateDataFromCliFeed w f v rt gs = (some l, s2)) :
    l ≠ [] := by
  unfold tryGetParsedTemplateDataFromCliFeed at h
  cases hc : cliFeedComputation w f v rt with
  | error e =>
    rw [hc] at h
    exact absurd h (by simp)
  | ok r =>
    rw [hc] at h
    have hv := cliFeedComputation_ok_verify w f v rt r hc
    have hne := verify_ok_ne_nil _ _ _ hv
    cases gs with
    | none =>
      simp only [Prod.mk.injEq, Option.some.injEq] at h
      rw [← h.1]
      exact hne
    | some gs0 =>
      simp only [Prod.mk.injEq, Option.some.injEq] at h
      rw [← h.1]
      exact hne

/-- The last-attempt projection of an appended attempt. -/
theorem lastResult_concat (xs : List (Tier × Option (List IFunctionTemplate)))
    (x : Tier × Option (List IFunctionTemplate)) :
    lastResult (xs ++ [x]) = x.2 := by
  unfold lastResult
  rw [List.getLast?_concat]

/-- When every attempt but the last produced no result and the last produced
none, every attempt produced no result. -/
theorem all_of_dropLast_last (l : List (Tier × Option (List IFunctionTemplate)))
    (h1 : (l.dropLast.all fun p => p.2.isNone) = true)
    (h2 : lastResult l = none) :
    (l.all fun p => p.2.isNone) = true := by
  induction l using List.reverseRecOn with
  | nil => rfl
  | append_singleton xs x ih =>
    rw [List.dropLast_concat] at h1
    rw [lastResult_concat] at h2
    rw [List.all_append, h1, Bool.true_and]
    simp [h2]

/-- When every attempt but the last produced no result, the last attempt's
result is the first produced result. -/
theorem lastResult_eq_head_filterMap
    (l : List (Tier × Option (List IFunctionTemplate)))
    (h1 : (l.dropLast.all fun p => p.2.isNone) = true) :
    lastResult l = (l.filterMap Prod.snd).head? := by
  induction l using List.reverseRecOn with
  | nil => rfl
  | append_singleton xs x ih =>
    rw [List.dropLast_concat] at h1
    rw [lastResult_concat, List.filterMap_append]
    have hxs : xs.filterMap Prod.snd = [] := by
      rw [List.filterMap_eq_nil_iff]
      intro a ha
      exact Option.isNone_iff_eq_none.mp ((List.all_eq_true.mp h1) a ha)
    rw [hxs, List.nil_append]
    cases hx2 : x.2 with
    | none => simp [List.filterMap_cons, hx2]
    | some v => simp [List.filterMap_cons, hx2]

/-- Tier 1 establishes the resolver invariant. -/
theorem runTier1_inv (w : World) (tv : Option String) (gs : Option Memento)
    (rt : ProjectRuntime) :
    OutcomeInv (runTier1 w tv gs rt) ∧
    ((runTier1 w tv gs rt).attempts.map Prod.fst).Sublist [Tier.matchingCache] := by
  unfold runTier1
  cases gs with
  | none => exact ⟨⟨rfl, rfl, rfl⟩, by simp⟩
  | some gs0 =>
    dsimp only
    by_cases hv : gs0.templateVersion rt = tv
    · rw [if_pos hv]
      exact ⟨⟨rfl, rfl, rfl⟩, by simp⟩
    · rw [if_neg hv]
      exact ⟨⟨rfl, rfl, rfl⟩, by simp⟩

/-- Tier 2 preserves the resolver invariant and extends the attempted-tier
order. -/
theorem runTier2_inv (w : World) (feed : Option CliFeedJson) (tv : Option String)
    (rt : ProjectRuntime) (o : ResolveOutcome) (l : List Tier)
    (hinv : OutcomeInv o) (hs : (o.attempts.map Prod.fst).Sublist l) :
    OutcomeInv (runTier2 w feed tv rt o) ∧
    ((runTier2 w feed tv rt o).attempts.map Prod.fst).Sublist (l ++ [Tier.cliFeed]) := by
  have hskip : (o.attempts.map Prod.fst).Sublist (l ++ [Tier.cliFeed]) :=
    hs.trans (List.sublist_append_left l [Tier.cliFeed])
  unfold runTier2
  by_cases hr : o.result.isNone = true
  · rw [if_pos hr]
    have hallnone : (o.attempts.all fun p => p.2.isNone) = true :=
      all_of_dropLast_last o.attempts hinv.1
        (hinv.2.1.symm.trans (Option.isNone_iff_eq_none.mp hr))
    cases feed with
    | none => exact ⟨hinv, hskip⟩
    | some f =>
      cases tv with
      | none => exact ⟨hinv, hskip⟩
      | some v =>
        dsimp only
        by_cases hv : (v == "") = true
        · rw [if_pos hv]
          exact ⟨hinv, hskip⟩
        · rw [if_neg hv]
          cases he : tryGetParsedTemplateDataFromCliFeed w f v rt o.finalState
            with | mk r gs2 =>
          dsimp only
          refine ⟨⟨?_, ?_, ?_⟩, ?_⟩
          · rw [List.dropLast_concat]
            exact hallnone
          · exact (lastResult_concat o.attempts (Tier.cliFeed, r)).symm
          · rw [List.all_append, hinv.2.2, Bool.true_and]
            cases r with
            | none => rfl
            | some ts =>
              have hne := feed_result_ne_nil w f v rt o.finalState ts gs2 he
              simp [List.isEmpty_eq_false.mpr hne]
          · rw [List.map_append]
            exact hs.append (List.Sublist.refl [Tier.cliFeed])
  · rw [if_neg hr]
    exact ⟨hinv, hskip⟩

/-- Tier 3 preserves the resolver invariant and extends the attempted-tier
order. -/
theorem runTier3_inv (w : World) (rt : ProjectRuntime) (o : ResolveOutcome)
    (l : List Tier) (hinv : OutcomeInv o)
    (hs : (o.attempts.map Prod.fst).Sublist l) :
    OutcomeInv (runTier3 w rt o) ∧
    ((runTier3 w rt o).attempts.map Prod.fst).Sublist (l ++ [Tier.mismatchCache]) := by
  have hskip : (o.attempts.map Prod.fst).Sublist (l ++ [Tier.mismatchCache]) :=
    hs.trans (List.sublist_append_left l [Tier.mismatchCache])
  unfold runTier3
  by_cases hr : o.result.isNone = true
  · rw [if_pos hr]
    have hallnone : (o.attempts.all fun p => p.2.isNone) = true :=
      all_of_dropLast_last o.attempts hinv.1
        (hinv.2.1.symm.trans (Option.isNone_iff_eq_none.mp hr))
    cases hfs : o.finalState with
    | none => exact ⟨hinv, hskip⟩
    | some gs0 =>
      dsimp only
      refine ⟨⟨?_, ?_, ?_⟩, ?_⟩
      · rw [List.dropLast_concat]
        exact hallnone
      · exact (lastResult_concat o.attempts
          (Tier.mismatchCache, tryGetParsedTemplateDataFromCache w rt gs0)).symm
      · rw [List.all_append, hinv.2.2, Bool.true_and]
        rfl
      · rw [List.map_append]
        exact hs.append (List.Sublist.refl [Tier.mismatchCache])
  · rw [if_neg hr]
    exact ⟨hinv, hskip⟩

/-- Tier 4 preserves the resolver invariant and extends the attempted-tier
order. -/
theorem runTier4_inv (w : World) (feed : Option CliFeedJson)
    (rt : ProjectRuntime) (o : ResolveOutcome) (l : List Tier)
    (hinv : OutcomeInv o) (hs : (o.attempts.map Prod.fst).Sublist l) :
    OutcomeInv (runTier4 w feed rt o) ∧
    ((runTier4 w feed rt o).attempts.map Prod.fst).Sublist (l ++ [Tier.backupCliFeed]) := by
  have hskip : (o.attempts.map Prod.fst).Sublist (l ++ [Tier.backupCliFeed]) :=
    hs.trans (List.sublist_append_left l [Tier.backupCliFeed])
  unfold runTier4
  by_cases hr : o.result.isNone = true
  · rw [if_pos hr]
    have hallnone : (o.attempts.all fun p => p.2.isNone) = true :=
      all_of_dropLast_last o.attempts hinv.1
        (hinv.2.1.symm.trans (Option.isNone_iff_eq_none.mp hr))
    cases feed with
    | none => exact ⟨hinv, hskip⟩
    | some f =>
      dsimp only
      cases he : tryGetParsedTemplateDataFromCliFeed w f
        (if rt = ProjectRuntime.one then w.v1ReleaseVersion else w.betaReleaseVersion)
        rt o.finalState with | mk r gs2 =>
      dsimp only
      refine ⟨⟨?_, ?_, ?_⟩, ?_⟩
      · rw [List.dropLast_concat]
        exact hallnone
      · exact (lastResult_concat o.attempts (Tier.backupCliFeed, r)).symm
      · rw [List.all_append, hinv.2.2, Bool.true_and]
        cases r with
        | none => rfl
        | some ts =>
          have hne := feed_result_ne_nil w f _ rt o.finalState ts gs2 he
          simp [List.isEmpty_eq_false.mpr hne]
      · rw [List.map_append]
        exact hs.append (List.Sublist.refl [Tier.backupCliFeed])
  · rw [if_neg hr]
    exact ⟨hinv, hskip⟩

/-- The composed per-runtime resolver satisfies the invariant and attempts the
tiers in the canonical order. -/
theorem getTemplateDataForRuntime_inv (w : World) (feed : Option CliFeedJson)
    (tv : Option String) (gs : Option Memento) (rt : ProjectRuntime) :
    OutcomeInv (getTemplateDataForRuntime w feed tv gs rt) ∧
    ((getTemplateDataForRuntime w feed tv gs rt).attempts.map Prod.fst).Sublist
      [Tier.matchingCache, Tier.cliFeed, Tier.mismatchCache, Tier.backupCliFeed] := by
  have h1 := runTier1_inv w tv gs rt
  have h2 := runTier2_inv w feed tv rt _ _ h1.1 h1.2
  have h3 := runTier3_inv w rt _ _ h2.1 h2.2
  have h4 := runTier4_inv w feed rt _ _ h3.1 h3.2
  exact h4

/-! ## Claims about the four-tier resolver -/

/-- Claim C1 (code bug): tryGetParsedTemplateDataFromCache always returns
undefined, for every environment, runtime and persisted state: the parsed
cached templates computed into its local variable are discarded, so the cache
tiers can never produce a result and getTemplateData always falls through to
the feed. -/
theorem cache_tier_always_returns_undefined (w : World) (rt : ProjectRuntime)
    (gs : Memento) :
    tryGetParsedTemplateDataFromCache w rt gs = none := rfl

/-- Claim C2: the per-runtime body of getTemplateData attempts the tiers in
exactly the order matching cache, cli feed at the requested version, stale
cache, cli feed at the backup version (the attempted tiers form a subsequence
of that canonical order), and every attempt except possibly the last produced
no result, so a later tier is attempted only when every earlier tier produced
none. -/
theorem fallback_tiers_attempted_in_order (w : World) (feed : Option CliFeedJson)
    (tv : Option String) (gs : Option Memento) (rt : ProjectRuntime) :
    ((getTemplateDataForRuntime w feed tv gs rt).attempts.map Prod.fst).Sublist
      [Tier.matchingCache, Tier.cliFeed, Tier.mismatchCache, Tier.backupCliFeed] ∧
    ((getTemplateDataForRuntime w feed tv gs rt).attempts.dropLast.all
      fun p => p.2.isNone) = true :=
  ⟨(getTemplateDataForRuntime_inv w feed tv gs rt).2,
   (getTemplateDataForRuntime_inv w feed tv gs rt).1.1⟩

/-- Claim C3: the resolver result is the first produced result of the
attempted tiers, every produced tier result is a nonempty list, and
getTemplateData stores exactly these per-runtime results in its templates
map, so the stored list is the result of the first tier that yielded a
nonempty list and an empty result is never stored. -/
theorem fallback_first_nonempty_result :
    (∀ (w : World) (feed : Option CliFeedJson) (tv : Option String)
      (gs : Option Memento) (rt : ProjectRuntime),
      (getTemplateDataForRuntime w feed tv gs rt).result =
        ((getTemplateDataForRuntime w feed tv gs rt).attempts.filterMap Prod.snd).head? ∧
      ((getTemplateDataForRuntime w feed tv gs rt).attempts.all
        fun p => p.2.elim true fun ts => !ts.isEmpty) = true) ∧
    (∀ (w : World) (feed : Option CliFeedJson)
      (tvm : ProjectRuntime → Option String) (gs : Option Memento),
      (getTemplateData w feed tvm gs).1.templatesMap ProjectRuntime.one =
        (getTemplateDataForRuntime w feed (tvm ProjectRuntime.one) gs
          ProjectRuntime.one).result ∧
      (getTemplateData w feed tvm gs).1.templatesMap ProjectRuntime.beta =
        (getTemplateDataForRuntime w feed (tvm ProjectRuntime.beta)
          (getTemplateDataForRuntime w feed (tvm ProjectRuntime.one) gs
            ProjectRuntime.one).finalState ProjectRuntime.beta).result) := by
  constructor
  · intro w feed tv gs rt
    have h := (getTemplateDataForRuntime_inv w feed tv gs rt).1
    exact ⟨h.2.1.trans (lastResult_eq_head_filterMap _ h.1), h.2.2⟩
  · intro w feed tvm gs
    exact ⟨rfl, rfl⟩

/-- Claim C4: whenever any step of the feed fetch fails (download, extraction,
read, parse or verification), tryGetParsedTemplateDataFromCliFeed returns
undefined with the persisted state untouched instead of propagating the
error (in this total embedding the function cannot throw by construction). -/
theorem cliFeed_failure_returns_undefined (w : World) (f : CliFeedJson)
    (v : String) (rt : ProjectRuntime) (gs : Option Memento) (e : String)
    (h : cliFeedComputation w f v rt = Except.error e) :
    tryGetParsedTemplateDataFromCliFeed w f v rt gs = (none, gs) := by
  unfold tryGetParsedTemplateDataFromCliFeed
  rw [h]

/-- Witness for claim C4: a world whose network is unreachable. -/
theorem cliFeed_failure_returns_undefined_witness :
    (cliFeedComputation failingWorld sampleFeed "2.0.0" ProjectRuntime.beta =
      Except.error "network unreachable") ∧
    tryGetParsedTemplateDataFromCliFeed failingWorld sampleFeed "2.0.0"
      ProjectRuntime.beta none = (none, none) :=
  ⟨rfl, cliFeed_failure_returns_undefined failingWorld sampleFeed "2.0.0"
    ProjectRuntime.beta none "network unreachable" rfl⟩

/-- Claim C10: cache updates are atomic with respect to feed failures: either
the whole fetch failed, nothing is returned and the persisted state is exactly
the state passed in, or the fetch (including verification) succeeded and
exactly then the five cache entries are written for the runtime. -/
theorem cache_write_atomic (w : World) (f : CliFeedJson) (v : String)
    (rt : ProjectRuntime) (gs : Memento) :
    tryGetParsedTemplateDataFromCliFeed w f v rt (some gs) = (none, some gs) ∨
    ∃ r, cliFeedComputation w f v rt = Except.ok r ∧
      verifyTemplatesByRuntime w.dotnetInstalled r.templates rt = Except.ok () ∧
      tryGetParsedTemplateDataFromCliFeed w f v rt (some gs) =
        (some r.templates, some (applyCacheWrite gs rt v r)) := by
  cases hc : cliFeedComputation w f v rt with
  | error e =>
    left
    unfold tryGetParsedTemplateDataFromCliFeed
    rw [hc]
  | ok r =>
    right
    refine ⟨r, rfl, cliFeedComputation_ok_verify w f v rt r hc, ?_⟩
    unfold tryGetParsedTemplateDataFromCliFeed
    rw [hc]

end AzureFunctions
